import Mathlib

set_option maxHeartbeats 1000000

/- Verification of the crash-python XFS subsystem
   (src/crash/subsystem/filesystem/xfs.py) and of the xfs presentation command
   (src/crash/commands/xfs.py). The generic primitives those modules import
   (crash.util.container_of, crash.types.list.list_for_each_entry, the lazy
   type-callback registry of crash.infra and the bio decoder chain of
   crash.subsystem.storage) are not part of the staged sources; they are
   modelled from the spec where so marked. -/

/-- XFS log item tag constant (src/crash/subsystem/filesystem/xfs.py line 17). -/
def XFS_LI_EFI : Nat := 0x1236

/-- XFS log item tag constant (line 18). -/
def XFS_LI_EFD : Nat := 0x1237

/-- XFS log item tag constant (line 19). -/
def XFS_LI_IUNLINK : Nat := 0x1238

/-- XFS log item tag constant (line 20). -/
def XFS_LI_INODE : Nat := 0x123b

/-- XFS log item tag constant (line 21). -/
def XFS_LI_BUF : Nat := 0x123c

/-- XFS log item tag constant (line 22). -/
def XFS_LI_DQUOT : Nat := 0x123d

/-- XFS log item tag constant (line 23). -/
def XFS_LI_QUOTAOFF : Nat := 0x123e

/-- The seven known log item tag values, in the order the source declares
them (lines 17-23). -/
def knownTags : List Nat :=
  [XFS_LI_EFI, XFS_LI_EFD, XFS_LI_IUNLINK, XFS_LI_INODE, XFS_LI_BUF,
   XFS_LI_DQUOT, XFS_LI_QUOTAOFF]

/-- Structure layout metadata resolved from the image's debug information: a
type name and the byte offset of each named field. -/
structure StructDescriptor where
  name : String
  fields : List (String × Nat)
  deriving DecidableEq, Repr

/-- The byte offset of a named field, none when the field is absent from this
version of the type. -/
def StructDescriptor.offsetOf (d : StructDescriptor) (f : String) : Option Nat :=
  (d.fields.find? (fun p => p.1 == f)).map Prod.snd

/-- Field-presence probe, the Python `name in gdbtype` membership test. -/
def StructDescriptor.hasField (d : StructDescriptor) (f : String) : Bool :=
  d.fields.any (fun p => p.1 == f)

/-- A gdb.Value as the module uses it: an address in the image paired with the
descriptor of the structure that lives there. -/
structure TypedValue where
  address : Nat
  typeDesc : StructDescriptor
  deriving DecidableEq, Repr

/-- The error conditions the walked code can signal. -/
inductive CrashError where
  | typeNotFound (name : String)
  | fieldNotFound (field : String)
  | memoryAccess (addr : Nat)
  | corruptList (steps : Nat) (lastAddr : Nat)
  | unknownTag (tag : Nat)
  | typeError (msg : String)
  deriving DecidableEq, Repr

/-- Modelled from the spec: `container_of` lives in crash.util, which is not
under src/. Per the contract of section 4.4 the result's address is the member
address minus the member field's offset inside the owning descriptor, its type
is the owning descriptor, and a field the descriptor does not carry fails. -/
def container_of (value : TypedValue) (d : StructDescriptor) (field : String) :
    Except CrashError TypedValue :=
  match d.offsetOf field with
  | none => Except.error (CrashError.fieldNotFound field)
  | some o => Except.ok ⟨value.address - o, d⟩

/-- A struct xfs_log_item header as read from the image: its address and the
integer value of its li_type tag field. -/
structure XfsLogItem where
  address : Nat
  li_type : Nat
  deriving DecidableEq, Repr

/-- The resolved per-type state of class XFSFileSystem: the descriptors its
__types__ list resolves (src/crash/subsystem/filesystem/xfs.py lines 98-107)
and the ail_head_name attribute set by _detect_ail_version. -/
structure XFSFileSystem where
  xfs_log_item_type : StructDescriptor
  xfs_buf_log_item_type : StructDescriptor
  xfs_inode_log_item_type : StructDescriptor
  xfs_efi_log_item_type : StructDescriptor
  xfs_efd_log_item_type : StructDescriptor
  xfs_dq_logitem_type : StructDescriptor
  xfs_qoff_logitem_type : StructDescriptor
  ail_head_name : String
  deriving DecidableEq, Repr

/-- item_to_buf_log_item (lines 218-234): raise unless the tag is XFS_LI_BUF,
otherwise container_of to struct xfs_buf_log_item through its bli_item field. -/
def item_to_buf_log_item (cls : XFSFileSystem) (item : XfsLogItem) :
    Except CrashError TypedValue :=
  if item.li_type ≠ XFS_LI_BUF then
    Except.error (CrashError.typeError "item is not a buf log item")
  else
    container_of ⟨item.address, cls.xfs_log_item_type⟩
      cls.xfs_buf_log_item_type "bli_item"

/-- item_to_inode_log_item (lines 236-252): raise unless the tag is
XFS_LI_INODE, otherwise container_of through the ili_item field. -/
def item_to_inode_log_item (cls : XFSFileSystem) (item : XfsLogItem) :
    Except CrashError TypedValue :=
  if item.li_type ≠ XFS_LI_INODE then
    Except.error (CrashError.typeError "item is not an inode log item")
  else
    container_of ⟨item.address, cls.xfs_log_item_type⟩
      cls.xfs_inode_log_item_type "ili_item"

/-- item_to_efi_log_item (lines 254-270). -/
def item_to_efi_log_item (cls : XFSFileSystem) (item : XfsLogItem) :
    Except CrashError TypedValue :=
  if item.li_type ≠ XFS_LI_EFI then
    Except.error (CrashError.typeError "item is not an EFI log item")
  else
    container_of ⟨item.address, cls.xfs_log_item_type⟩
      cls.xfs_efi_log_item_type "efi_item"

/-- item_to_efd_log_item (lines 272-288). -/
def item_to_efd_log_item (cls : XFSFileSystem) (item : XfsLogItem) :
    Except CrashError TypedValue :=
  if item.li_type ≠ XFS_LI_EFD then
    Except.error (CrashError.typeError "item is not an EFD log item")
  else
    container_of ⟨item.address, cls.xfs_log_item_type⟩
      cls.xfs_efd_log_item_type "efd_item"

/-- item_to_dquot_log_item (lines 290-306). -/
def item_to_dquot_log_item (cls : XFSFileSystem) (item : XfsLogItem) :
    Except CrashError TypedValue :=
  if item.li_type ≠ XFS_LI_DQUOT then
    Except.error (CrashError.typeError "item is not an DQUOT log item")
  else
    container_of ⟨item.address, cls.xfs_log_item_type⟩
      cls.xfs_dq_logitem_type "qli_item"

/-- item_to_quotaoff_log_item (lines 308-324). -/
def item_to_quotaoff_log_item (cls : XFSFileSystem) (item : XfsLogItem) :
    Except CrashError TypedValue :=
  if item.li_type ≠ XFS_LI_QUOTAOFF then
    Except.error (CrashError.typeError "item is not an QUOTAOFF log item")
  else
    container_of ⟨item.address, cls.xfs_log_item_type⟩
      cls.xfs_qoff_logitem_type "qql_item"

/-- What xfs_log_item_typed returns: a gdb.Value downcast to the variant's
structure, or, for the unlink case, the bare integer tag itself. -/
inductive LogItemTyped where
  | typed (value : TypedValue)
  | bareTag (tag : Nat)
  deriving DecidableEq, Repr

/-- xfs_log_item_typed (lines 326-364): dispatch on the li_type tag in source
order; the XFS_LI_IUNLINK arm returns the tag value itself, and a tag outside
the known set raises carrying the raw tag value. -/
def xfs_log_item_typed (cls : XFSFileSystem) (item : XfsLogItem) :
    Except CrashError LogItemTyped :=
  let li_type := item.li_type
  if li_type = XFS_LI_BUF then
    (item_to_buf_log_item cls item).map LogItemTyped.typed
  else if li_type = XFS_LI_INODE then
    (item_to_inode_log_item cls item).map LogItemTyped.typed
  else if li_type = XFS_LI_EFI then
    (item_to_efi_log_item cls item).map LogItemTyped.typed
  else if li_type = XFS_LI_EFD then
    (item_to_efd_log_item cls item).map LogItemTyped.typed
  else if li_type = XFS_LI_IUNLINK then
    Except.ok (LogItemTyped.bareTag li_type)
  else if li_type = XFS_LI_DQUOT then
    (item_to_dquot_log_item cls item).map LogItemTyped.typed
  else if li_type = XFS_LI_QUOTAOFF then
    (item_to_quotaoff_log_item cls item).map LogItemTyped.typed
  else
    Except.error (CrashError.unknownTag li_type)

/-- Modelled from the spec: the traversal step of list_for_each_entry, whose
code (crash.types.list) is not under src/. Per section 4.3 it stops when the
current link address revisits the head, otherwise downcasts the link to a
payload instance, yields it and advances along the link's next pointer; a step
ceiling exhausted before the head is revisited fails with CorruptListError
carrying the steps taken and the last address reached. `next` is the
snapshot's next-pointer map, `fuel` the remaining steps. -/
def list_for_each_entry_go (next : Nat → Nat) (head : Nat)
    (d : StructDescriptor) (o : Nat) :
    Nat → Nat → Nat → Except CrashError (List TypedValue)
  | 0, cur, steps =>
    if cur = head then Except.ok []
    else Except.error (CrashError.corruptList steps cur)
  | fuel + 1, cur, steps =>
    if cur = head then Except.ok []
    else
      match list_for_each_entry_go next head d o fuel (next cur) (steps + 1) with
      | Except.ok rest => Except.ok (⟨cur - o, d⟩ :: rest)
      | Except.error e => Except.error e

/-- Modelled from the spec: list_for_each_entry (crash.types.list, not under
src/) per section 4.3. The walk starts at the head's next pointer; the link
field's offset inside the payload descriptor is resolved by name. -/
def list_for_each_entry (next : Nat → Nat) (head : Nat) (d : StructDescriptor)
    (field : String) (ceiling : Nat) : Except CrashError (List TypedValue) :=
  match d.offsetOf field with
  | none => Except.error (CrashError.fieldNotFound field)
  | some o => list_for_each_entry_go next head d o ceiling (next head) 0

/-- A well-formed chain of link addresses: starting at `cur`, the listed
addresses are visited in order, none of them is the head, and the last one
links back to the head. -/
def linksChain (next : Nat → Nat) (head : Nat) : Nat → List Nat → Bool
  | cur, [] => cur == head
  | cur, a :: rest => cur == a && !(a == head) && linksChain next head (next a) rest

/-- xfs_for_each_ail_entry (lines 187-201): the list head is the AIL's field
named by the recorded ail_head_name, and the walk downcasts each link to a
struct xfs_log_item through its li_ail field. -/
def xfs_for_each_ail_entry (next : Nat → Nat) (cls : XFSFileSystem)
    (ailAddr : Nat) (ailType : StructDescriptor) (ceiling : Nat) :
    Except CrashError (List TypedValue) :=
  match ailType.offsetOf cls.ail_head_name with
  | none => Except.error (CrashError.fieldNotFound cls.ail_head_name)
  | some oh =>
    list_for_each_entry next (ailAddr + oh) cls.xfs_log_item_type "li_ail" ceiling

/-- _detect_ail_version (lines 146-151): choose the ail_head field name when
the resolved struct xfs_ail carries it, xa_ail otherwise. -/
def _detect_ail_version (gdbtype : StructDescriptor) : String :=
  if gdbtype.hasField "ail_head" then "ail_head" else "xa_ail"

/-- The session state behind the struct xfs_ail type callback: whether the
registration is still pending and the recorded head field name. -/
structure AilCallbackState where
  pending : Bool
  ail_head_name : Option String
  deriving DecidableEq, Repr

/-- The state before the type resolves: the callback registered by
__type_callbacks__ (line 109) is pending and no name is recorded. -/
def initAilState : AilCallbackState := { pending := true, ail_head_name := none }

/-- Modelled from the spec: the Lazy Resolution Registry (crash.infra, not
under src/) per section 4.2 runs a pending finalize callback at the moment the
subject type resolves and then consumes the registration, so a later
resolution event does not re-run it. The callback here is _detect_ail_version
recording the head field name. -/
def processTypeResolution (st : AilCallbackState) (gdbtype : StructDescriptor) :
    AilCallbackState :=
  if st.pending then
    { pending := false, ail_head_name := some (_detect_ail_version gdbtype) }
  else st

/-- The fields of a struct xfs_buf that decode_xfsbuf reads. -/
structure XfsBufFields where
  b_file_offset : Nat
  b_buffer_length : Nat
  b_bn : Nat
  deriving DecidableEq, Repr

/-- A struct bio as decode_xfs_buf_bio_end_io reads it: its address, its
bi_private pointer, and the name block_device_name gives its bi_bdev. -/
structure Bio where
  address : Nat
  bi_private : Nat
  devname : String
  deriving DecidableEq, Repr

/-- The decoder functions a chain entry can name as its decode key; the only
one this module registers for a successor is decode_xfsbuf (line 140). -/
inductive BioDecoder where
  | xfsbufDecoder
  deriving DecidableEq, Repr

/-- One decoder chain entry: its description and the optional successor
handle paired with the decoder to apply to it. -/
structure ChainEntry where
  description : String
  next : Option (Nat × BioDecoder)
  deriving DecidableEq, Repr

/-- Lowercase hex rendering, Python format {:x}. -/
def hexStr (n : Nat) : String := String.mk (Nat.toDigits 16 n)

/-- decode_xfsbuf (lines 117-127): describe the buffer's offset, size and
block number; the chain dict carries no next key, so the chain ends here.
`mem` maps a buffer address to the fields read at it. -/
def decode_xfsbuf (mem : Nat → XfsBufFields) (xfsbuf : Nat) : ChainEntry :=
  let f := mem xfsbuf
  { description :=
      hexStr xfsbuf ++ " xfsbuf: offset " ++ toString f.b_file_offset ++
      ", size " ++ toString f.b_buffer_length ++
      ", block number " ++ toString f.b_bn,
    next := none }

/-- decode_xfs_buf_bio_end_io (lines 129-143): describe the bio and name as
successor the xfs_buf obtained by casting the bio's bi_private pointer, paired
with decode_xfsbuf as its decoder. -/
def decode_xfs_buf_bio_end_io (bio : Bio) : ChainEntry :=
  { description := hexStr bio.address ++ " bio: xfs buffer on " ++ bio.devname,
    next := some (bio.bi_private, BioDecoder.xfsbufDecoder) }

/-- Apply a chain entry's named decoder to its successor handle. -/
def applyDecoder (mem : Nat → XfsBufFields) : BioDecoder → Nat → ChainEntry
  | BioDecoder.xfsbufDecoder, handle => decode_xfsbuf mem handle

/-- Modelled from the spec: the decoder chain walk of section 4.6 (its code,
crash.subsystem.storage, is not under src/): collect the entry, and while an
entry names a successor, apply the named decoder to it; the sequence ends at
an entry naming no successor. The walk is fuel-bounded. -/
def unwindChain (mem : Nat → XfsBufFields) :
    Nat → ChainEntry → List ChainEntry
  | 0, entry => [entry]
  | fuel + 1, entry =>
    match entry.next with
    | none => [entry]
    | some (handle, d) => entry :: unwindChain mem fuel (applyDecoder mem d handle)

/-- The printing branches of dump_ail (src/crash/commands/xfs.py lines
100-137) by the guard each takes. -/
inductive AilBranch where
  | bufBranch
  | inodeBranch
  | efiBranch
  | efdBranch
  | dquotBranch
  | quotaoffBranch
  | fallbackBranch
  deriving DecidableEq, Repr

/-- The branch dump_ail selects for a log item's li_type: the guards compare
in source order, and the guard at line 123, in front of the branch that prints
the efd format, repeats the comparison against XFS_LI_EFI of line 118. -/
def dump_ail_branch (li_type : Nat) : AilBranch :=
  if li_type = XFS_LI_BUF then AilBranch.bufBranch
  else if li_type = XFS_LI_INODE then AilBranch.inodeBranch
  else if li_type = XFS_LI_EFI then AilBranch.efiBranch
  else if li_type = XFS_LI_EFI then AilBranch.efdBranch
  else if li_type = XFS_LI_DQUOT then AilBranch.dquotBranch
  else if li_type = XFS_LI_QUOTAOFF then AilBranch.quotaoffBranch
  else AilBranch.fallbackBranch

/-- One insertion into a Python dict: an existing key keeps its position and
takes the new value, a new key is appended. -/
def dictInsert (m : List (Nat × String)) (k : Nat) (v : String) :
    List (Nat × String) :=
  if m.any (fun p => p.1 == k) then
    m.map (fun p => if p.1 == k then (k, v) else p)
  else m ++ [(k, v)]

/-- A Python dict literal: its key-value pairs inserted left to right. -/
def buildDict (entries : List (Nat × String)) : List (Nat × String) :=
  entries.foldl (fun m kv => dictInsert m kv.1 kv.2) []

/-- The key-value pairs of the XFS_LI_TYPES dict literal in source order
(src/crash/subsystem/filesystem/xfs.py lines 25-34); the XFS_LI_EFI key is
written twice, both times with the value "XFS_LI_EFI". -/
def XFS_LI_TYPES_entries : List (Nat × String) :=
  [(XFS_LI_EFI, "XFS_LI_EFI"), (XFS_LI_EFD, "XFS_LI_EFD"),
   (XFS_LI_IUNLINK, "XFS_LI_IUNLINK"), (XFS_LI_INODE, "XFS_LI_INODE"),
   (XFS_LI_BUF, "XFS_LI_BUF"), (XFS_LI_EFI, "XFS_LI_EFI"),
   (XFS_LI_DQUOT, "XFS_LI_DQUOT"), (XFS_LI_QUOTAOFF, "XFS_LI_QUOTAOFF")]

/-- The XFS_LI_TYPES mapping as the dict literal builds it. -/
def XFS_LI_TYPES : List (Nat × String) := buildDict XFS_LI_TYPES_entries

/-- Python dict lookup by key. -/
def dictLookup (m : List (Nat × String)) (k : Nat) : Option String :=
  (m.find? (fun p => p.1 == k)).map Prod.snd

/-- Sample descriptors and fixtures the witnesses evaluate the definitions
at. -/
def sampleLogItemType : StructDescriptor :=
  ⟨"struct xfs_log_item", [("li_ail", 8), ("li_type", 24)]⟩

def sampleAilType : StructDescriptor :=
  ⟨"struct xfs_ail", [("xa_target", 0), ("xa_ail", 8)]⟩

def sampleFS : XFSFileSystem :=
  { xfs_log_item_type := sampleLogItemType,
    xfs_buf_log_item_type := ⟨"struct xfs_buf_log_item", [("bli_item", 16)]⟩,
    xfs_inode_log_item_type := ⟨"struct xfs_inode_log_item", [("ili_item", 16)]⟩,
    xfs_efi_log_item_type := ⟨"struct xfs_efi_log_item", [("efi_item", 16)]⟩,
    xfs_efd_log_item_type := ⟨"struct xfs_efd_log_item", [("efd_item", 16)]⟩,
    xfs_dq_logitem_type := ⟨"struct xfs_dq_logitem", [("qli_item", 16)]⟩,
    xfs_qoff_logitem_type := ⟨"struct xfs_qoff_logitem", [("qql_item", 16)]⟩,
    ail_head_name := "xa_ail" }

def sampleBufItem : XfsLogItem := ⟨2048, XFS_LI_BUF⟩

def sampleUnknownItem : XfsLogItem := ⟨4096, 9999⟩

/-- A three-address ring: the head link at 108, then 200, then 300, back to
the head. -/
def sampleNext : Nat → Nat := fun a =>
  if a == 108 then 200 else if a == 200 then 300 else if a == 300 then 108 else 0

def sampleMem : Nat → XfsBufFields := fun _ => ⟨4096, 512, 77⟩

def sampleBio : Bio := ⟨768, 900, "sda1"⟩

/-- C10: the XFS_LI_TYPES mapping built from the dict literal that writes the
XFS_LI_EFI key twice with the identical name has exactly seven entries, one
per known tag, and looking up any known tag, including XFS_LI_EFD, yields
that tag's own name. -/
theorem XFS_LI_TYPES_seven_entries :
    XFS_LI_TYPES.length = 7
    ∧ dictLookup XFS_LI_TYPES XFS_LI_EFI = some "XFS_LI_EFI"
    ∧ dictLookup XFS_LI_TYPES XFS_LI_EFD = some "XFS_LI_EFD"
    ∧ dictLookup XFS_LI_TYPES XFS_LI_IUNLINK = some "XFS_LI_IUNLINK"
    ∧ dictLookup XFS_LI_TYPES XFS_LI_INODE = some "XFS_LI_INODE"
    ∧ dictLookup XFS_LI_TYPES XFS_LI_BUF = some "XFS_LI_BUF"
    ∧ dictLookup XFS_LI_TYPES XFS_LI_DQUOT = some "XFS_LI_DQUOT"
    ∧ dictLookup XFS_LI_TYPES XFS_LI_QUOTAOFF = some "XFS_LI_QUOTAOFF" :=
  ⟨rfl, rfl, rfl, rfl, rfl, rfl, rfl, rfl⟩

/-- C9: in dump_ail no li_type value can select the branch that prints the
efd format, its guard repeating the earlier XFS_LI_EFI comparison, and an
item whose tag is XFS_LI_EFD is dispatched to the fallback branch. -/
theorem dump_ail_efd_branch_unreachable :
    (∀ t : Nat, dump_ail_branch t ≠ AilBranch.efdBranch)
    ∧ dump_ail_branch XFS_LI_EFD = AilBranch.fallbackBranch := by
  constructor
  · intro t h
    unfold dump_ail_branch at h
    split_ifs at h
  · rfl

/-- C5: the container_of offset arithmetic round-trips: applied to the member
address P + O, where O is the offset the owning descriptor gives the member
field, the result is a value of the owning descriptor at address exactly P. -/
theorem container_of_round_trip (P O : Nat) (td d : StructDescriptor)
    (f : String) (h : d.offsetOf f = some O) :
    container_of ⟨P + O, td⟩ d f = Except.ok ⟨P, d⟩ := by
  simp [container_of, h]

theorem container_of_round_trip_witness :
    container_of ⟨100 + 16, sampleLogItemType⟩
      sampleFS.xfs_buf_log_item_type "bli_item" =
      Except.ok ⟨100, sampleFS.xfs_buf_log_item_type⟩ :=
  container_of_round_trip 100 16 sampleLogItemType
    sampleFS.xfs_buf_log_item_type "bli_item" rfl

/-- C7: once struct xfs_ail resolves, the registered callback runs exactly
once and records the head field name: ail_head when the resolved type carries
that field, xa_ail otherwise; a second resolution event leaves the recorded
state unchanged, and the AIL traversal depends on the xfs_ail descriptor only
through the offset of the recorded name, never by re-probing field
presence. -/
theorem ail_version_detection_once
    (t t2 ailT1 ailT2 : StructDescriptor) (cls : XFSFileSystem)
    (next : Nat → Nat) (ailAddr ceiling : Nat)
    (hoff : ailT1.offsetOf cls.ail_head_name = ailT2.offsetOf cls.ail_head_name) :
    ((processTypeResolution initAilState t).ail_head_name =
        some (if t.hasField "ail_head" then "ail_head" else "xa_ail"))
    ∧ (processTypeResolution initAilState t).pending = false
    ∧ processTypeResolution (processTypeResolution initAilState t) t2 =
        processTypeResolution initAilState t
    ∧ xfs_for_each_ail_entry next cls ailAddr ailT1 ceiling =
        xfs_for_each_ail_entry next cls ailAddr ailT2 ceiling := by
  refine ⟨rfl, rfl, rfl, ?_⟩
  simp only [xfs_for_each_ail_entry, hoff]

theorem ail_version_detection_once_witness :
    (processTypeResolution initAilState sampleAilType).ail_head_name =
      some (if sampleAilType.hasField "ail_head" then "ail_head" else "xa_ail") :=
  (ail_version_detection_once sampleAilType sampleAilType sampleAilType
    sampleAilType sampleFS sampleNext 100 10 rfl).1

/-- C8: decoding a bio under the xfs_buf_bio_end_io decoder yields a chain of
exactly two entries: the first describes the bio and names as successor the
buffer taken from the bio's bi_private pointer paired with decode_xfsbuf, and
the second, decode_xfsbuf of that buffer, describes its offset, size and
block number and names no successor, ending the chain. -/
theorem decode_bio_chain_two_entries
    (mem : Nat → XfsBufFields) (bio : Bio) (fuel : Nat) (hfuel : 1 ≤ fuel) :
    unwindChain mem fuel (decode_xfs_buf_bio_end_io bio) =
      [decode_xfs_buf_bio_end_io bio, decode_xfsbuf mem bio.bi_private]
    ∧ (decode_xfs_buf_bio_end_io bio).next =
        some (bio.bi_private, BioDecoder.xfsbufDecoder)
    ∧ (decode_xfs_buf_bio_end_io bio).description =
        hexStr bio.address ++ " bio: xfs buffer on " ++ bio.devname
    ∧ (decode_xfsbuf mem bio.bi_private).next = none
    ∧ (decode_xfsbuf mem bio.bi_private).description =
        hexStr bio.bi_private ++ " xfsbuf: offset " ++
        toString (mem bio.bi_private).b_file_offset ++
        ", size " ++ toString (mem bio.bi_private).b_buffer_length ++
        ", block number " ++ toString (mem bio.bi_private).b_bn := by
  obtain ⟨f, rfl⟩ : ∃ f, fuel = f + 1 := ⟨fuel - 1, by omega⟩
  refine ⟨?_, rfl, rfl, rfl, rfl⟩
  cases f <;>
    simp [unwindChain, decode_xfs_buf_bio_end_io, applyDecoder, decode_xfsbuf]

theorem decode_bio_chain_two_entries_witness :
    unwindChain sampleMem 5 (decode_xfs_buf_bio_end_io sampleBio) =
      [decode_xfs_buf_bio_end_io sampleBio,
       decode_xfsbuf sampleMem sampleBio.bi_private] :=
  (decode_bio_chain_two_entries sampleMem sampleBio 5 (by decide)).1

/-- C1: xfs_log_item_typed maps each of the seven known tags to the
correspondingly-typed variant - the container_of downcast for six of them,
the bare tag for XFS_LI_IUNLINK - and fails on any other tag with an error
carrying that exact raw tag value, never passing the item through. -/
theorem xfs_log_item_typed_classifies
    (cls : XFSFileSystem) (item : XfsLogItem) (ob oi oe od oq oo : Nat)
    (hb : cls.xfs_buf_log_item_type.offsetOf "bli_item" = some ob)
    (hi : cls.xfs_inode_log_item_type.offsetOf "ili_item" = some oi)
    (he : cls.xfs_efi_log_item_type.offsetOf "efi_item" = some oe)
    (hd : cls.xfs_efd_log_item_type.offsetOf "efd_item" = some od)
    (hq : cls.xfs_dq_logitem_type.offsetOf "qli_item" = some oq)
    (ho : cls.xfs_qoff_logitem_type.offsetOf "qql_item" = some oo) :
    (item.li_type = XFS_LI_BUF → xfs_log_item_typed cls item =
      Except.ok (LogItemTyped.typed ⟨item.address - ob, cls.xfs_buf_log_item_type⟩))
    ∧ (item.li_type = XFS_LI_INODE → xfs_log_item_typed cls item =
      Except.ok (LogItemTyped.typed ⟨item.address - oi, cls.xfs_inode_log_item_type⟩))
    ∧ (item.li_type = XFS_LI_EFI → xfs_log_item_typed cls item =
      Except.ok (LogItemTyped.typed ⟨item.address - oe, cls.xfs_efi_log_item_type⟩))
    ∧ (item.li_type = XFS_LI_EFD → xfs_log_item_typed cls item =
      Except.ok (LogItemTyped.typed ⟨item.address - od, cls.xfs_efd_log_item_type⟩))
    ∧ (item.li_type = XFS_LI_IUNLINK → xfs_log_item_typed cls item =
      Except.ok (LogItemTyped.bareTag item.li_type))
    ∧ (item.li_type = XFS_LI_DQUOT → xfs_log_item_typed cls item =
      Except.ok (LogItemTyped.typed ⟨item.address - oq, cls.xfs_dq_logitem_type⟩))
    ∧ (item.li_type = XFS_LI_QUOTAOFF → xfs_log_item_typed cls item =
      Except.ok (LogItemTyped.typed ⟨item.address - oo, cls.xfs_qoff_logitem_type⟩))
    ∧ (item.li_type ∉ knownTags → xfs_log_item_typed cls item =
      Except.error (CrashError.unknownTag item.li_type)) := by
  refine ⟨?_, ?_, ?_, ?_, ?_, ?_, ?_, ?_⟩ <;> intro h
  · simp [xfs_log_item_typed, Except.map, item_to_buf_log_item, container_of, h, hb,
      XFS_LI_EFI, XFS_LI_EFD, XFS_LI_IUNLINK, XFS_LI_INODE, XFS_LI_BUF,
      XFS_LI_DQUOT, XFS_LI_QUOTAOFF]
  · simp [xfs_log_item_typed, Except.map, item_to_inode_log_item, container_of, h, hi,
      XFS_LI_EFI, XFS_LI_EFD, XFS_LI_IUNLINK, XFS_LI_INODE, XFS_LI_BUF,
      XFS_LI_DQUOT, XFS_LI_QUOTAOFF]
  · simp [xfs_log_item_typed, Except.map, item_to_efi_log_item, container_of, h, he,
      XFS_LI_EFI, XFS_LI_EFD, XFS_LI_IUNLINK, XFS_LI_INODE, XFS_LI_BUF,
      XFS_LI_DQUOT, XFS_LI_QUOTAOFF]
  · simp [xfs_log_item_typed, Except.map, item_to_efd_log_item, container_of, h, hd,
      XFS_LI_EFI, XFS_LI_EFD, XFS_LI_IUNLINK, XFS_LI_INODE, XFS_LI_BUF,
      XFS_LI_DQUOT, XFS_LI_QUOTAOFF]
  · simp [xfs_log_item_typed, h,
      XFS_LI_EFI, XFS_LI_EFD, XFS_LI_IUNLINK, XFS_LI_INODE, XFS_LI_BUF,
      XFS_LI_DQUOT, XFS_LI_QUOTAOFF]
  · simp [xfs_log_item_typed, Except.map, item_to_dquot_log_item, container_of, h, hq,
      XFS_LI_EFI, XFS_LI_EFD, XFS_LI_IUNLINK, XFS_LI_INODE, XFS_LI_BUF,
      XFS_LI_DQUOT, XFS_LI_QUOTAOFF]
  · simp [xfs_log_item_typed, Except.map, item_to_quotaoff_log_item, container_of, h, ho,
      XFS_LI_EFI, XFS_LI_EFD, XFS_LI_IUNLINK, XFS_LI_INODE, XFS_LI_BUF,
      XFS_LI_DQUOT, XFS_LI_QUOTAOFF]
  · simp only [knownTags, List.mem_cons, List.not_mem_nil, or_false,
      XFS_LI_EFI, XFS_LI_EFD, XFS_LI_IUNLINK, XFS_LI_INODE, XFS_LI_BUF,
      XFS_LI_DQUOT, XFS_LI_QUOTAOFF, not_or] at h
    obtain ⟨h1, h2, h3, h4, h5, h6, h7⟩ := h
    simp [xfs_log_item_typed,
      XFS_LI_EFI, XFS_LI_EFD, XFS_LI_IUNLINK, XFS_LI_INODE, XFS_LI_BUF,
      XFS_LI_DQUOT, XFS_LI_QUOTAOFF, h1, h2, h3, h4, h5, h6, h7]

theorem xfs_log_item_typed_classifies_witness :
    xfs_log_item_typed sampleFS sampleUnknownItem =
      Except.error (CrashError.unknownTag sampleUnknownItem.li_type) :=
  (xfs_log_item_typed_classifies sampleFS sampleUnknownItem 16 16 16 16 16 16
    rfl rfl rfl rfl rfl rfl).2.2.2.2.2.2.2 (by decide)

/-- Helper for C2: an Except.map of the typed constructor can only succeed
with a typed variant. -/
theorem map_typed_ok {X : Except CrashError TypedValue} {v : LogItemTyped}
    (h : Except.map LogItemTyped.typed X = Except.ok v) :
    ∃ tv : TypedValue, v = LogItemTyped.typed tv := by
  cases X with
  | ok w =>
    refine ⟨w, ?_⟩
    simpa [Except.map] using h.symm
  | error e => simp [Except.map] at h

/-- C2: a log item whose tag is XFS_LI_IUNLINK is classified as the bare
integer tag value itself, and this is the only tag in the known set for which
a successful classification is not a downcast to a specific structure. -/
theorem xfs_log_item_typed_iunlink_bare
    (cls : XFSFileSystem) (item : XfsLogItem) :
    (item.li_type = XFS_LI_IUNLINK → xfs_log_item_typed cls item =
      Except.ok (LogItemTyped.bareTag item.li_type))
    ∧ (∀ v : LogItemTyped, item.li_type ∈ knownTags →
        item.li_type ≠ XFS_LI_IUNLINK →
        xfs_log_item_typed cls item = Except.ok v →
        ∃ tv : TypedValue, v = LogItemTyped.typed tv) := by
  constructor
  · intro h
    simp [xfs_log_item_typed, h,
      XFS_LI_EFI, XFS_LI_EFD, XFS_LI_IUNLINK, XFS_LI_INODE, XFS_LI_BUF,
      XFS_LI_DQUOT, XFS_LI_QUOTAOFF]
  · intro v hmem hne hok
    simp only [knownTags, List.mem_cons, List.not_mem_nil, or_false,
      XFS_LI_EFI, XFS_LI_EFD, XFS_LI_IUNLINK, XFS_LI_INODE, XFS_LI_BUF,
      XFS_LI_DQUOT, XFS_LI_QUOTAOFF] at hmem
    simp only [XFS_LI_IUNLINK] at hne
    rcases hmem with h | h | h | h | h | h | h
    · simp only [xfs_log_item_typed, h,
        XFS_LI_EFI, XFS_LI_EFD, XFS_LI_IUNLINK, XFS_LI_INODE, XFS_LI_BUF,
        XFS_LI_DQUOT, XFS_LI_QUOTAOFF, if_true, if_false] at hok
      exact map_typed_ok (by simpa using hok)
    · simp only [xfs_log_item_typed, h,
        XFS_LI_EFI, XFS_LI_EFD, XFS_LI_IUNLINK, XFS_LI_INODE, XFS_LI_BUF,
        XFS_LI_DQUOT, XFS_LI_QUOTAOFF] at hok
      exact map_typed_ok (by simpa using hok)
    · exact absurd h hne
    · simp only [xfs_log_item_typed, h,
        XFS_LI_EFI, XFS_LI_EFD, XFS_LI_IUNLINK, XFS_LI_INODE, XFS_LI_BUF,
        XFS_LI_DQUOT, XFS_LI_QUOTAOFF] at hok
      exact map_typed_ok (by simpa using hok)
    · simp only [xfs_log_item_typed, h,
        XFS_LI_EFI, XFS_LI_EFD, XFS_LI_IUNLINK, XFS_LI_INODE, XFS_LI_BUF,
        XFS_LI_DQUOT, XFS_LI_QUOTAOFF] at hok
      exact map_typed_ok (by simpa using hok)
    · simp only [xfs_log_item_typed, h,
        XFS_LI_EFI, XFS_LI_EFD, XFS_LI_IUNLINK, XFS_LI_INODE, XFS_LI_BUF,
        XFS_LI_DQUOT, XFS_LI_QUOTAOFF] at hok
      exact map_typed_ok (by simpa using hok)
    · simp only [xfs_log_item_typed, h,
        XFS_LI_EFI, XFS_LI_EFD, XFS_LI_IUNLINK, XFS_LI_INODE, XFS_LI_BUF,
        XFS_LI_DQUOT, XFS_LI_QUOTAOFF] at hok
      exact map_typed_ok (by simpa using hok)

/-- C6: the buffer conversion downcasts through the fixed field name bli_item
and the inode conversion through ili_item; each raises exactly when the
item's tag differs from its variant's tag, and on a matching tag returns the
container_of result typed with the variant's own descriptor. -/
theorem item_to_variant_conversions
    (cls : XFSFileSystem) (item : XfsLogItem) (ob oi : Nat)
    (hb : cls.xfs_buf_log_item_type.offsetOf "bli_item" = some ob)
    (hi : cls.xfs_inode_log_item_type.offsetOf "ili_item" = some oi) :
    ((∃ e, item_to_buf_log_item cls item = Except.error e) ↔
      item.li_type ≠ XFS_LI_BUF)
    ∧ (item.li_type = XFS_LI_BUF → item_to_buf_log_item cls item =
        container_of ⟨item.address, cls.xfs_log_item_type⟩
          cls.xfs_buf_log_item_type "bli_item")
    ∧ (item.li_type = XFS_LI_BUF → item_to_buf_log_item cls item =
        Except.ok ⟨item.address - ob, cls.xfs_buf_log_item_type⟩)
    ∧ ((∃ e, item_to_inode_log_item cls item = Except.error e) ↔
      item.li_type ≠ XFS_LI_INODE)
    ∧ (item.li_type = XFS_LI_INODE → item_to_inode_log_item cls item =
        container_of ⟨item.address, cls.xfs_log_item_type⟩
          cls.xfs_inode_log_item_type "ili_item")
    ∧ (item.li_type = XFS_LI_INODE → item_to_inode_log_item cls item =
        Except.ok ⟨item.address - oi, cls.xfs_inode_log_item_type⟩) := by
  have hbuf : item_to_buf_log_item cls item =
      if item.li_type = XFS_LI_BUF
      then Except.ok ⟨item.address - ob, cls.xfs_buf_log_item_type⟩
      else Except.error (CrashError.typeError "item is not a buf log item") := by
    by_cases h : item.li_type = XFS_LI_BUF <;>
      simp [item_to_buf_log_item, container_of, h, hb]
  have hino : item_to_inode_log_item cls item =
      if item.li_type = XFS_LI_INODE
      then Except.ok ⟨item.address - oi, cls.xfs_inode_log_item_type⟩
      else Except.error (CrashError.typeError "item is not an inode log item") := by
    by_cases h : item.li_type = XFS_LI_INODE <;>
      simp [item_to_inode_log_item, container_of, h, hi]
  refine ⟨?_, ?_, ?_, ?_, ?_, ?_⟩
  · rw [hbuf]
    by_cases h : item.li_type = XFS_LI_BUF <;> simp [h]
  · intro h
    rw [hbuf]
    simp [h, container_of, hb]
  · intro h
    rw [hbuf]
    simp [h]
  · rw [hino]
    by_cases h : item.li_type = XFS_LI_INODE <;> simp [h]
  · intro h
    rw [hino]
    simp [h, container_of, hi]
  · intro h
    rw [hino]
    simp [h]

theorem item_to_variant_conversions_witness :
    item_to_buf_log_item sampleFS sampleBufItem =
      Except.ok ⟨sampleBufItem.address - 16, sampleFS.xfs_buf_log_item_type⟩ :=
  (item_to_variant_conversions sampleFS sampleBufItem 16 16 rfl rfl).2.2.1 rfl

/-- Helper for C3: along a well-formed chain the walker yields one payload
value per link, in link order, with fuel to spare. -/
theorem list_for_each_entry_go_ok
    (next : Nat → Nat) (head : Nat) (d : StructDescriptor) (o : Nat) :
    ∀ (as : List Nat) (fuel cur steps : Nat),
      linksChain next head cur as = true → as.length ≤ fuel →
      list_for_each_entry_go next head d o fuel cur steps =
        Except.ok (as.map fun a => ⟨a - o, d⟩) := by
  intro as
  induction as with
  | nil =>
    intro fuel cur steps hch _
    have hcur : cur = head := by simpa [linksChain] using hch
    cases fuel <;> simp [list_for_each_entry_go, hcur]
  | cons a rest ih =>
    intro fuel cur steps hch hlen
    simp only [linksChain, Bool.and_eq_true, beq_iff_eq, Bool.not_eq_true',
      beq_eq_false_iff_ne, ne_eq] at hch
    obtain ⟨⟨hcur, hah⟩, hrest⟩ := hch
    subst hcur
    cases fuel with
    | zero => simp at hlen
    | succ f =>
      have hlen' : rest.length ≤ f := by simpa using hlen
      simp [list_for_each_entry_go, hah,
        ih f (next cur) (steps + 1) hrest hlen']

/-- C3: for a valid circular list whose N well-formed nodes fit under the
step ceiling, the AIL traversal yields exactly the N log items, in link
order, downcast from each link by the li_ail offset, and terminates normally
when the walk revisits the head address. -/
theorem xfs_for_each_ail_entry_yields_nodes
    (next : Nat → Nat) (cls : XFSFileSystem) (ailAddr : Nat)
    (ailType : StructDescriptor) (ceiling oh o : Nat) (as : List Nat)
    (hh : ailType.offsetOf cls.ail_head_name = some oh)
    (hf : cls.xfs_log_item_type.offsetOf "li_ail" = some o)
    (hch : linksChain next (ailAddr + oh) (next (ailAddr + oh)) as = true)
    (hlen : as.length ≤ ceiling) :
    xfs_for_each_ail_entry next cls ailAddr ailType ceiling =
      Except.ok (as.map fun a => ⟨a - o, cls.xfs_log_item_type⟩) := by
  simp only [xfs_for_each_ail_entry, list_for_each_entry, hh, hf]
  exact list_for_each_entry_go_ok next (ailAddr + oh) cls.xfs_log_item_type o
    as ceiling (next (ailAddr + oh)) 0 hch hlen

theorem xfs_for_each_ail_entry_yields_nodes_witness :
    xfs_for_each_ail_entry sampleNext sampleFS 100 sampleAilType 10 =
      Except.ok ([200, 300].map fun a => ⟨a - 8, sampleFS.xfs_log_item_type⟩) :=
  xfs_for_each_ail_entry_yields_nodes sampleNext sampleFS 100 sampleAilType
    10 8 8 [200, 300] rfl rfl (by decide) (by decide)

/-- Helper for C4: when no iterate of next reaches the head within the fuel,
the walker exhausts its fuel and reports the steps taken and the address it
stopped at. -/
theorem list_for_each_entry_go_corrupt
    (next : Nat → Nat) (head : Nat) (d : StructDescriptor) (o : Nat) :
    ∀ (fuel cur steps : Nat),
      (∀ j, j ≤ fuel → next^[j] cur ≠ head) →
      list_for_each_entry_go next head d o fuel cur steps =
        Except.error (CrashError.corruptList (steps + fuel) (next^[fuel] cur)) := by
  intro fuel
  induction fuel with
  | zero =>
    intro cur steps hno
    have h0 : cur ≠ head := by simpa using hno 0 (Nat.le_refl 0)
    simp [list_for_each_entry_go, h0]
  | succ f ih =>
    intro cur steps hno
    have h0 : cur ≠ head := by simpa using hno 0 (by omega)
    have hno2 : ∀ j, j ≤ f → next^[j] (next cur) ≠ head := by
      intro j hj
      have := hno (j + 1) (by omega)
      simpa [Function.iterate_succ_apply] using this
    simp only [list_for_each_entry_go, h0, if_false,
      ih (next cur) (steps + 1) hno2, Function.iterate_succ_apply]
    have harith : steps + 1 + f = steps + (f + 1) := by omega
    simp [harith]

/-- C4: a list whose next chain never revisits its head within the step
ceiling makes the traversal fail with a CorruptListError carrying the number
of steps taken and the last address reached, instead of looping without
bound. -/
theorem list_for_each_entry_ceiling_corrupt
    (next : Nat → Nat) (head : Nat) (d : StructDescriptor) (field : String)
    (o ceiling : Nat)
    (hf : d.offsetOf field = some o)
    (hno : ∀ j, j ≤ ceiling → next^[j] (next head) ≠ head) :
    list_for_each_entry next head d field ceiling =
      Except.error (CrashError.corruptList ceiling (next^[ceiling] (next head))) := by
  simp only [list_for_each_entry, hf]
  simpa using list_for_each_entry_go_corrupt next head d o
    ceiling (next head) 0 hno

theorem list_for_each_entry_ceiling_corrupt_witness :
    list_for_each_entry (fun a => a + 1) 0 sampleLogItemType "li_ail" 3 =
      Except.error (CrashError.corruptList 3 4) :=
  list_for_each_entry_ceiling_corrupt (fun a => a + 1) 0 sampleLogItemType
    "li_ail" 8 3 rfl (by decide)
